import Mathlib

/-!
Verification of `src/build/include/QCAR/EyewearUserCalibrator.h`.

The repository contains a single C++ header declaring the pure abstract
interface `QCAR::EyewearUserCalibrator` (six pure-virtual methods, no
bodies).  The implementation is a vendor-supplied binary that is not part
of the repository, and the companion headers it includes
(`NonCopyable.h`, `EyewearCalibrationReading.h`, `QCAR.h`) are likewise
absent from `src/`.  We therefore embed:

  * the interface declaration itself (method list, signatures,
    non-copyability) directly from the header text, and
  * a reference implementation of the documented contract, modelled from
    the spec, against which the behavioural claims are settled.

C++ `float` is modelled as `ℚ`; C++ `int` as `ℤ`.  A C++ out-parameter
(`Matrix44F& calibrationResult`) is modelled by passing the matrix in and
returning the possibly-updated matrix.
-/

namespace QCAR

/-- Modelled from the spec: `Matrix44F` (declared in the missing header
`QCAR.h`) is "a 4x4 floating-point matrix, representing a projection
transform". -/
def Matrix44F : Type := Fin 4 → Fin 4 → ℚ

instance : DecidableEq Matrix44F := by
  unfold Matrix44F
  infer_instance

/-- The 4x4 identity, used as a base point for the modelled projection. -/
def Matrix44F.identity : Matrix44F :=
  fun i j => if i = j then 1 else 0

/-- Modelled from the spec: `EyewearCalibrationReading` (declared in the
missing header `EyewearCalibrationReading.h`) is "one user-performed
alignment observation", opaque to the header under review; the doc
comment of `getProjectionMatrix` (line 129) mentions that a reading
carries a pose and a scale. -/
structure EyewearCalibrationReading where
  pose : Matrix44F
  scale : ℚ

/-- Modelled from the spec: the device-specific data the vendor
implementation consults — "The minimum size that can be drawn is device
specific", "Some eyewear devices have distortion towards the edge of the
display", "Some eyewear devices introduce distortion in the calibration
shapes", "When a device enters 3D it may join the displays together to
create one big display". -/
structure DeviceProfile where
  /-- device-specific smallest practical calibration-shape scale -/
  minPracticalScale : ℚ
  /-- device-specific largest practical calibration-shape scale -/
  maxPracticalScale : ℚ
  /-- device-specific horizontal/vertical distortion factor applied when
  drawing calibration shapes -/
  distortionFactor : ℚ
  /-- whether entering 3D joins the two displays into one big display -/
  joinsDisplaysIn3D : Bool
  /-- display resolution outside the stereoscopic mode -/
  monoResolution : ℕ × ℕ
  /-- apparent display resolution in the stereoscopic mode -/
  stereoResolution : ℕ × ℕ

/-- Modelled from the spec: the state of a calibrator instance.  The
header documents a single temporal fact about the hidden state — whether
`init` has already been called successfully ("This function must be
called before any other members of this class", "init must be called
before calling this function") — together with the dimensions `init`
stores ("Initialize with rendering-surface dimensions and physical
target dimensions (millimeters)"). -/
structure CalibratorState where
  device : DeviceProfile
  initialized : Bool
  surfaceWidth : ℤ
  surfaceHeight : ℤ
  targetWidth : ℤ
  targetHeight : ℤ

namespace EyewearUserCalibrator

/-- Modelled from the spec: the success criterion of `init` is not
documented beyond "True if initialisation is successful, false
otherwise"; we model success as the rendering-surface and physical
target dimensions being positive, the minimal sanity requirement on
width/height values measured in pixels and millimetres. -/
def initSucceeds (surfaceWidth surfaceHeight targetWidth targetHeight : ℤ) : Bool :=
  decide (0 < surfaceWidth) && decide (0 < surfaceHeight) &&
  decide (0 < targetWidth) && decide (0 < targetHeight)

/-- Modelled from the spec: "Initialises the eyewear calibrator. ...
returns success/failure."  On success the dimensions are recorded and
the calibrator becomes initialised; on failure the state is unchanged.
Header: `virtual bool init(int surfaceWidth, int surfaceHeight, int
targetWidth, int targetHeight) = 0;` (lines 73–74). -/
def init (s : CalibratorState)
    (surfaceWidth surfaceHeight targetWidth targetHeight : ℤ) :
    CalibratorState × Bool :=
  if initSucceeds surfaceWidth surfaceHeight targetWidth targetHeight then
    ({ s with
        initialized := true
        surfaceWidth := surfaceWidth
        surfaceHeight := surfaceHeight
        targetWidth := targetWidth
        targetHeight := targetHeight }, true)
  else
    (s, false)

/-- Clamp a device-specific scale into the documented hint range. -/
def clampScale (x : ℚ) : ℚ := max 0 (min 1 x)

/-- Modelled from the spec: "Gets a hint of the minimum size a
calibration shape should be drawn ... The minimum scale of the shape in
the range 0.0 - 1.0" (header lines 76–86): the device-specific practical
minimum, clamped into the documented range. -/
def getMinScaleHint (s : CalibratorState) : ℚ :=
  clampScale s.device.minPracticalScale

/-- Modelled from the spec: "Gets a hint of the maximum size a
calibration shape should be drawn ... The maximum scale of the shape in
the range 0.0 - 1.0" (header lines 88–97): the device-specific practical
maximum, clamped into the documented range. -/
def getMaxScaleHint (s : CalibratorState) : ℚ :=
  clampScale s.device.maxPracticalScale

/-- Modelled from the spec: "Gets the aspect ratio that should be used
to draw a calibration shape ... Some eyewear devices introduce
distortion in the calibration shapes, for example in the form of
horizontal or vertical stretch" (header lines 100–109): the surface
aspect ratio adjusted by the device-specific distortion factor.  The
method is declared `const` (line 109), so it returns the state it was
given together with the ratio. -/
def getDrawingAspectRatio (s : CalibratorState)
    (surfaceWidth surfaceHeight : ℤ) : CalibratorState × ℚ :=
  (s, if surfaceHeight = 0 then 0
      else s.device.distortionFactor * ((surfaceWidth : ℚ) / (surfaceHeight : ℚ)))

/-- The property documented for `isStereoStretched` (header lines
112–116): "When a device enters 3D it may join the displays together to
create one big display.  If the resolution of the display appears the
same then the display is effectively stretched." -/
def displayStretched (d : DeviceProfile) : Prop :=
  d.joinsDisplaysIn3D = true ∧ d.stereoResolution = d.monoResolution

instance (d : DeviceProfile) : Decidable (displayStretched d) := by
  unfold displayStretched
  infer_instance

/-- Modelled from the spec: "Checks whether a device stretches the
display to create a stereoscopic effect" (header lines 112–120),
following the documented criterion: the device joins its displays in 3D
and the apparent resolution stays that of the single display. -/
def isStereoStretched (s : CalibratorState) : Bool :=
  s.device.joinsDisplaysIn3D && decide (s.device.stereoResolution = s.device.monoResolution)

/-- Modelled from the spec: the calibration mathematics is proprietary
("the actual calibration mathematics ... live in a proprietary native
library not included in this repository"); modelled as a concrete
placeholder that scales the identity projection by the readings taken. -/
def computeProjection (s : CalibratorState)
    (readings : List EyewearCalibrationReading) : Matrix44F :=
  fun i j =>
    Matrix44F.identity i j *
      (1 + (readings.map (fun r => r.scale)).sum + s.targetWidth)

/-- The indices the modelled `getProjectionMatrix` loop reads from the
`readings` array: `0, 1, ..., numReadings - 1`, exactly as a C loop
`for (int i = 0; i < numReadings; ++i)` over the array would. -/
def accessedIndices (numReadings : ℕ) : List ℕ :=
  List.range numReadings

/-- Reads `readings[0] .. readings[numReadings - 1]`; each access is
checked, so the gather fails (returns `none`) exactly when some access
would be out of bounds. -/
def gatherReadings (readings : List EyewearCalibrationReading)
    (numReadings : ℕ) : Option (List EyewearCalibrationReading) :=
  (accessedIndices numReadings).mapM (fun i => readings[i]?)

/-- Modelled from the spec: "Gets a projection matrix calibrated for
eyewear ... init must be called before calling this function ...
\return True if the call is successful, otherwise false" (header lines
122–135).  The C++ out-parameter `Matrix44F& calibrationResult` is
modelled by passing the matrix in and returning the possibly-updated
matrix alongside the success flag: before initialisation, or when a
read of the array would be out of bounds, the call fails and the output
matrix is left as given; otherwise the computed calibrated matrix is
written through it. -/
def getProjectionMatrix (s : CalibratorState)
    (readings : List EyewearCalibrationReading) (numReadings : ℤ)
    (calibrationResult : Matrix44F) : Matrix44F × Bool :=
  if !s.initialized then
    (calibrationResult, false)
  else
    match gatherReadings readings numReadings.toNat with
    | none => (calibrationResult, false)
    | some rs => (computeProjection s rs, true)

end EyewearUserCalibrator

/-- The public pure-virtual methods declared by
`class QCAR_API EyewearUserCalibrator` in the header (lines 73, 86, 97,
109, 120 and 134), in declaration order; the class body declares
nothing else. -/
def declaredVirtualMethods : List String :=
  ["init", "getMinScaleHint", "getMaxScaleHint",
   "getDrawingAspectRatio", "isStereoStretched", "getProjectionMatrix"]

/-- Header line 57: `class QCAR_API EyewearUserCalibrator : private
NonCopyable`. -/
def inheritsNonCopyable : Bool := true

/-- Modelled from the spec: `NonCopyable.h` is absent from the sources;
by its name and the usual C++ idiom, it is a base class whose copy
constructor and copy-assignment operator are inaccessible, so a class
deriving from it cannot be copied through its public interface. -/
def calibratorCopyable : Bool := !inheritsNonCopyable

/-- A step a client of the interface can take with calibrator objects:
invoke one of the six declared virtual methods (none of which returns a
calibrator object), or attempt to copy a calibrator, which is only
available when the class is copyable. -/
inductive ClientOp where
  | callMethod (idx : Fin 6)
  | copyCalibrator (newRef : ℕ)

/-- Effect of a client step on the set of calibrator objects the client
holds (objects named by reference identity). -/
def applyClientOp (copyable : Bool) (held : List ℕ) (op : ClientOp) : List ℕ :=
  match op with
  | ClientOp.callMethod _ => held
  | ClientOp.copyCalibrator newRef => if copyable then newRef :: held else held

/-- The calibrator objects a client holds after a sequence of steps,
starting from the one originally obtained. -/
def clientHeld (copyable : Bool) (original : ℕ) (ops : List ClientOp) : List ℕ :=
  ops.foldl (applyClientOp copyable) [original]

/-- A concrete device profile, used to build sample states. -/
def sampleDevice : DeviceProfile :=
  { minPracticalScale := 3 / 10
    maxPracticalScale := 9 / 10
    distortionFactor := 1
    joinsDisplaysIn3D := true
    monoResolution := (1280, 720)
    stereoResolution := (1280, 720) }

/-- A freshly obtained calibrator: `init` has not been called. -/
def sampleState : CalibratorState :=
  { device := sampleDevice
    initialized := false
    surfaceWidth := 0
    surfaceHeight := 0
    targetWidth := 0
    targetHeight := 0 }

/-- A calibrator on which `init` has succeeded. -/
def sampleStateInit : CalibratorState :=
  { device := sampleDevice
    initialized := true
    surfaceWidth := 1280
    surfaceHeight := 720
    targetWidth := 200
    targetHeight := 150 }

/-- A concrete calibration reading. -/
def sampleReading : EyewearCalibrationReading :=
  { pose := Matrix44F.identity, scale := 1 / 2 }

end QCAR

namespace QCAR.EyewearUserCalibrator

/-- Claim C2 — For every calibrator state, `getMinScaleHint` returns a
value in the closed range [0.0, 1.0]. -/
theorem getMinScaleHint_mem_unit_interval (s : QCAR.CalibratorState) :
    0 ≤ getMinScaleHint s ∧ getMinScaleHint s ≤ 1 := by
  unfold getMinScaleHint clampScale
  constructor
  · exact le_max_left 0 _
  · exact max_le (by norm_num) (min_le_left 1 _)

/-- Claim C3 — For every calibrator state, `getMaxScaleHint` returns a
value in the closed range [0.0, 1.0]. -/
theorem getMaxScaleHint_mem_unit_interval (s : QCAR.CalibratorState) :
    0 ≤ getMaxScaleHint s ∧ getMaxScaleHint s ≤ 1 := by
  unfold getMaxScaleHint clampScale
  constructor
  · exact le_max_left 0 _
  · exact max_le (by norm_num) (min_le_left 1 _)

/-- Claim C1 — In every calibrator state in which `init` has not yet
been called, `getProjectionMatrix` is rejected: it returns `false` and
leaves the output matrix as it was, producing no calibrated projection
matrix. -/
theorem getProjectionMatrix_rejected_before_init (s : QCAR.CalibratorState)
    (readings : List QCAR.EyewearCalibrationReading) (numReadings : ℤ)
    (calibrationResult : QCAR.Matrix44F) (h : s.initialized = false) :
    getProjectionMatrix s readings numReadings calibrationResult =
      (calibrationResult, false) := by
  unfold getProjectionMatrix
  simp [h]

/-- Witness for C1: a freshly obtained calibrator is uninitialised, and
the call on it fails without touching the output matrix. -/
theorem getProjectionMatrix_rejected_before_init_witness :
    QCAR.sampleState.initialized = false ∧
      getProjectionMatrix QCAR.sampleState [] 0 QCAR.Matrix44F.identity =
        (QCAR.Matrix44F.identity, false) :=
  ⟨rfl, getProjectionMatrix_rejected_before_init QCAR.sampleState [] 0
    QCAR.Matrix44F.identity rfl⟩

/-- Claim C4 — `init` takes the four integral dimensions and returns a
boolean that is `true` exactly when initialisation succeeds and `false`
otherwise; the boolean is the only error information produced. -/
theorem init_true_iff_succeeds (s : QCAR.CalibratorState)
    (surfaceWidth surfaceHeight targetWidth targetHeight : ℤ) :
    (init s surfaceWidth surfaceHeight targetWidth targetHeight).2 =
      initSucceeds surfaceWidth surfaceHeight targetWidth targetHeight := by
  unfold init
  by_cases hc : initSucceeds surfaceWidth surfaceHeight targetWidth targetHeight <;>
    simp [hc]

/-- Claim C5 — `getProjectionMatrix` returns a success flag and, on
success, writes the computed 4x4 calibrated projection matrix through
its output parameter. -/
theorem getProjectionMatrix_success_writes_result (s : QCAR.CalibratorState)
    (readings : List QCAR.EyewearCalibrationReading) (numReadings : ℤ)
    (calibrationResult : QCAR.Matrix44F)
    (hs : (getProjectionMatrix s readings numReadings calibrationResult).2 = true) :
    ∃ rs, gatherReadings readings numReadings.toNat = some rs ∧
      (getProjectionMatrix s readings numReadings calibrationResult).1 =
        computeProjection s rs := by
  unfold getProjectionMatrix at hs ⊢
  by_cases hb : s.initialized = true
  · simp only [hb, Bool.not_true, Bool.false_eq_true, if_false] at hs ⊢
    rcases hg : gatherReadings readings numReadings.toNat with _ | rs
    · simp [hg] at hs
    · exact ⟨rs, by simp [hg], by simp [hg]⟩
  · simp only [Bool.not_eq_true] at hb
    simp [hb] at hs

/-- Witness for C5: on an initialised calibrator with one reading the
call succeeds, and the computed matrix is written through the output. -/
theorem getProjectionMatrix_success_writes_result_witness :
    (getProjectionMatrix QCAR.sampleStateInit [QCAR.sampleReading] 1
        QCAR.Matrix44F.identity).2 = true ∧
      ∃ rs, gatherReadings [QCAR.sampleReading] (1 : ℤ).toNat = some rs ∧
        (getProjectionMatrix QCAR.sampleStateInit [QCAR.sampleReading] 1
            QCAR.Matrix44F.identity).1 = computeProjection QCAR.sampleStateInit rs :=
  ⟨rfl, getProjectionMatrix_success_writes_result QCAR.sampleStateInit
    [QCAR.sampleReading] 1 QCAR.Matrix44F.identity rfl⟩

/-- Claim C6 — `isStereoStretched` returns `true` exactly when the
device stretches its display to create the stereoscopic effect, in the
documented sense: entering 3D joins the displays and the apparent
resolution stays the same. -/
theorem isStereoStretched_iff_displayStretched (s : QCAR.CalibratorState) :
    isStereoStretched s = true ↔ displayStretched s.device := by
  unfold isStereoStretched displayStretched
  simp [Bool.and_eq_true, decide_eq_true_iff]

/-- Claim C7 — under the precondition that the readings array has
exactly `numReadings` elements, every array access `getProjectionMatrix`
performs (index 0 up to `numReadings - 1`) is in bounds. -/
theorem getProjectionMatrix_accesses_in_bounds
    (readings : List QCAR.EyewearCalibrationReading) (numReadings : ℤ)
    (h : (readings.length : ℤ) = numReadings) :
    ∀ i ∈ accessedIndices numReadings.toNat, (readings[i]?).isSome := by
  intro i hi
  unfold accessedIndices at hi
  rw [List.mem_range] at hi
  have hlen : i < readings.length := by omega
  rw [List.getElem?_eq_getElem hlen]
  rfl

/-- Witness for C7: a one-element array declared to hold one reading is
accessed only in bounds. -/
theorem getProjectionMatrix_accesses_in_bounds_witness :
    ((([QCAR.sampleReading] : List QCAR.EyewearCalibrationReading).length : ℤ) = 1) ∧
      ∀ i ∈ accessedIndices (1 : ℤ).toNat,
        ((([QCAR.sampleReading] : List QCAR.EyewearCalibrationReading))[i]?).isSome :=
  ⟨rfl, getProjectionMatrix_accesses_in_bounds [QCAR.sampleReading] 1 rfl⟩

/-- Counterexample to C8 as stated: the virtual dispatch table declared
by the header does not have five methods. -/
theorem declaredVirtualMethods_count_ne_five :
    ¬ QCAR.declaredVirtualMethods.length = 5 := by decide

/-- Claim C8 (amended) — the calibration interface exposes exactly six
abstract operations: `init`, `getMinScaleHint`, `getMaxScaleHint`,
`getDrawingAspectRatio`, `isStereoStretched`, `getProjectionMatrix`,
and nothing else. -/
theorem declaredVirtualMethods_count_six :
    QCAR.declaredVirtualMethods.length = 6 ∧ QCAR.declaredVirtualMethods.Nodup := by
  constructor
  · decide
  · decide

/-- Claim C9 — `getDrawingAspectRatio` is a `const` operation: for every
calibrator state and every pair of surface dimensions it leaves the
calibrator state unchanged. -/
theorem getDrawingAspectRatio_preserves_state (s : QCAR.CalibratorState)
    (surfaceWidth surfaceHeight : ℤ) :
    (getDrawingAspectRatio s surfaceWidth surfaceHeight).1 = s := rfl

/-- Claim C10 — the class privately inherits `NonCopyable`, so no copy
of a calibrator can be made through the public interface: after any
sequence of client steps, the only calibrator object the client holds
is the one originally obtained. -/
theorem noncopyable_client_holds_only_original :
    QCAR.inheritsNonCopyable = true ∧
      ∀ (original : ℕ) (ops : List QCAR.ClientOp),
        QCAR.clientHeld QCAR.calibratorCopyable original ops = [original] := by
  refine ⟨rfl, ?_⟩
  intro original ops
  unfold QCAR.clientHeld
  have key : ∀ (l : List QCAR.ClientOp) (held : List ℕ),
      l.foldl (QCAR.applyClientOp QCAR.calibratorCopyable) held = held := by
    intro l
    induction l with
    | nil => intro held; rfl
    | cons op rest ih =>
      intro held
      have hstep : QCAR.applyClientOp QCAR.calibratorCopyable held op = held := by
        cases op <;>
          simp [QCAR.applyClientOp, QCAR.calibratorCopyable, QCAR.inheritsNonCopyable]
      rw [List.foldl_cons, hstep]
      exact ih held
  exact key ops [original]

end QCAR.EyewearUserCalibrator
